import Mathlib

/-!
Shallow embedding of the record search/filter/sort pipeline of
`src/index.ts` (the `/api/databases/:dbName/search` handler) of the
local-lmdb-explorer repository.

JavaScript values are embedded as the inductive `JSValue`; JS numbers are
modelled as `Int` (the repository only ever compares and subtracts numeric
field values, and its sample data uses integers), so `Number(s)` becomes an
integer-literal parser and `NaN` is `Option.none`.  JS string comparison
(`<`, `<=` on strings, code-unit lexicographic) is modelled by Lean's
lexicographic `String` order, and `localeCompare` by code-point comparison.
-/

/-- Embedded JavaScript value: the decoded value of an LMDB record. -/
inductive JSValue where
  | vnull
  | vundefined
  | vbool (b : Bool)
  | vnum (n : Int)
  | vstr (s : String)
  | varr (xs : List JSValue)
  | vobj (fields : List (String × JSValue))

/-- `typeof v === "number"`. -/
def JSValue.isNumberTy : JSValue → Bool
  | .vnum _ => true
  | _ => false

/-- `typeof v === "string"`. -/
def JSValue.isStringTy : JSValue → Bool
  | .vstr _ => true
  | _ => false

mutual
/-- JS `String(v)` (template-literal stringification), restricted to the
embedded value grammar: `[object Object]` for objects, comma-joined
elements for arrays (with `null`/`undefined` elements printing empty,
as JS `Array.prototype.toString` does). -/
def jsToString : JSValue → String
  | .vnull => "null"
  | .vundefined => "undefined"
  | .vbool b => cond b "true" "false"
  | .vnum n => toString n
  | .vstr s => s
  | .varr xs => String.intercalate "," (jsToStringArr xs)
  | .vobj _ => "[object Object]"

/-- Stringification of array elements for `jsToString`. -/
def jsToStringArr : List JSValue → List String
  | [] => []
  | JSValue.vnull :: vs => "" :: jsToStringArr vs
  | JSValue.vundefined :: vs => "" :: jsToStringArr vs
  | v :: vs => jsToString v :: jsToStringArr vs
end

/-- `value[field]`: field lookup on an object, `undefined` otherwise
(record values in this pipeline are decoded documents; JS property access
on a non-object yields `undefined` for the document fields at issue). -/
def getField (v : JSValue) (f : String) : JSValue :=
  match v with
  | .vobj fields =>
    match fields.lookup f with
    | some x => x
    | none => .vundefined
  | _ => .vundefined

/-- Digits of a decimal numeral to a natural number; `none` when the list
is empty or holds a non-digit. -/
def digitsToNat : List Char → Option Nat
  | [] => none
  | cs => go cs 0
where
  go : List Char → Nat → Option Nat
    | [], acc => some acc
    | c :: rest, acc =>
      if c.isDigit then go rest (acc * 10 + (c.toNat - 48)) else none

/-- Signed decimal integer literal. -/
def parseIntLit : String → Option Int
  | s =>
    match s.data with
    | '-' :: rest => (digitsToNat rest).map (fun n => -(n : Int))
    | '+' :: rest => (digitsToNat rest).map (fun n => (n : Int))
    | cs => (digitsToNat cs).map (fun n => (n : Int))

/-- JS `Number(s)` on the integer fragment: whitespace is trimmed, the
empty string converts to `0`, and a non-numeral gives `NaN` (`none`). -/
def jsNumber (s : String) : Option Int :=
  let t := s.trim
  if t = "" then some 0 else parseIntLit t

/-- The filter closure built by the search handler
(`src/index.ts:318-371`): given the request's `filterField`,
`filterOperator` and `filterValue`, decide whether a record value passes. -/
def evalFilter (filterField filterOperator filterValue : String)
    (value : JSValue) : Bool :=
  let fieldValue := getField value filterField
  let numValue := jsNumber filterValue
  let isNumeric := numValue.isSome && (filterValue.trim != "")
  match filterOperator with
  | "=" =>
    match fieldValue with
    | .vstr s => s.toLower == filterValue.toLower
    | .vnum n =>
      if isNumeric then n == numValue.getD 0
      else jsToString (.vnum n) == filterValue
    | fv => jsToString fv == filterValue
  | "!=" =>
    match fieldValue with
    | .vstr s => s.toLower != filterValue.toLower
    | .vnum n =>
      if isNumeric then n != numValue.getD 0
      else jsToString (.vnum n) != filterValue
    | fv => jsToString fv != filterValue
  | ">" =>
    match fieldValue with
    | .vnum n => if isNumeric then decide (numValue.getD 0 < n) else false
    | fv => decide (filterValue < jsToString fv)
  | "<" =>
    match fieldValue with
    | .vnum n => if isNumeric then decide (n < numValue.getD 0) else false
    | fv => decide (jsToString fv < filterValue)
  | ">=" =>
    match fieldValue with
    | .vnum n => if isNumeric then decide (numValue.getD 0 ≤ n) else false
    | fv => decide (filterValue ≤ jsToString fv)
  | "<=" =>
    match fieldValue with
    | .vnum n => if isNumeric then decide (n ≤ numValue.getD 0) else false
    | fv => decide (jsToString fv ≤ filterValue)
  | _ => true

/-- Model of JS `localeCompare`: a three-way comparison returning
`-1`, `0` or `1`.  Locale-aware collation is modelled by the lexicographic
code-point order on strings (any consistent collation agrees on the sign
laws proved below). -/
def jsCompare (s t : String) : Int :=
  if s < t then -1 else if t < s then 1 else 0

/-- The ascending sort comparator built by the search handler
(`src/index.ts:382-392`) for a sort field: locale comparison for two
strings, numeric difference for two numbers, otherwise `0`. -/
def sortComparatorAsc (sortBy : String) (a b : JSValue) : Int :=
  match getField a sortBy, getField b sortBy with
  | .vstr x, .vstr y => jsCompare x y
  | .vnum x, .vnum y => x - y
  | _, _ => 0

/-- The descending sort comparator built by the search handler
(`src/index.ts:393-403`): the same dispatch with the operands swapped. -/
def sortComparatorDesc (sortBy : String) (a b : JSValue) : Int :=
  match getField a sortBy, getField b sortBy with
  | .vstr x, .vstr y => jsCompare y x
  | .vnum x, .vnum y => y - x
  | _, _ => 0

/-- Does `cs` start with `needle`? -/
def leadsWith : List Char → List Char → Bool
  | [], _ => true
  | _ :: _, [] => false
  | c :: cs, d :: ds => c == d && leadsWith cs ds

/-- Does `hay` contain `needle` as a contiguous subsequence? -/
def containsSeq (needle : List Char) : List Char → Bool
  | [] => needle.isEmpty
  | d :: ds => leadsWith needle (d :: ds) || containsSeq needle ds

mutual
/-- The stringified scalar leaves reachable from a value through nested
objects and arrays. -/
def scalarLeaves : JSValue → List String
  | .vobj fs => scalarLeavesFields fs
  | .varr xs => scalarLeavesArr xs
  | v => [jsToString v]

/-- Leaves of the elements of an array value. -/
def scalarLeavesArr : List JSValue → List String
  | [] => []
  | v :: vs => scalarLeaves v ++ scalarLeavesArr vs

/-- Leaves of the field values of an object value. -/
def scalarLeavesFields : List (String × JSValue) → List String
  | [] => []
  | (_, v) :: fs => scalarLeaves v ++ scalarLeavesFields fs
end

/-- Modelled from the spec: the external xlmdb deep-search matcher is not
part of this repository; per spec §4.3 it is a substring match over the
flattened scalar leaves of the record value (case sensitivity is left open
by the spec and fixed here as case-sensitive), and the empty query matches
every record. -/
def deepMatches (query : String) (v : JSValue) : Bool :=
  query == "" || (scalarLeaves v).any (fun leaf => containsSeq query.data leaf.data)

/-- One key/value record as returned by a sub-store. -/
structure RecordKV where
  key : String
  value : JSValue

/-- The options object the search handler hands to the xlmdb `search`
call (`src/index.ts:312-404`): a candidate cap, an optional list of filter
closures, an optional deep-search query, and an optional comparator. -/
structure SearchOptions where
  limit : Nat
  filters : List (JSValue → Bool)
  deepSearch : Option String
  sort : Option (JSValue → JSValue → Int)

/-- The search request after HTTP-parameter decoding
(`src/index.ts:280-287`); absent string parameters decode to `""`. -/
structure SearchRequest where
  query : String
  filterField : String
  filterOperator : String
  filterValue : String
  sortBy : String
  sortOrder : String
  limit : Nat

/-- Building the xlmdb options from a request (`src/index.ts:312-404`):
the candidate cap is `limit * 10`; the filter closure is installed only
when the field is a truthy string other than `"__none__"` and the value is
truthy; the deep search only when the query is truthy; the comparator only
when the sort field is a truthy string other than `"__none__"`, ascending
exactly when `sortOrder = "asc"`. -/
def buildOptions (r : SearchRequest) : SearchOptions where
  limit := r.limit * 10
  filters :=
    if r.filterField ≠ "" ∧ r.filterField ≠ "__none__" ∧ r.filterValue ≠ "" then
      [evalFilter r.filterField r.filterOperator r.filterValue]
    else []
  deepSearch := if r.query ≠ "" then some r.query else none
  sort :=
    if r.sortBy ≠ "" ∧ r.sortBy ≠ "__none__" then
      some (if r.sortOrder = "asc" then sortComparatorAsc r.sortBy
            else sortComparatorDesc r.sortBy)
    else none

/-- The predicate stage: a record passes when every installed filter
closure accepts its value. -/
def filterStage (filters : List (JSValue → Bool)) (l : List RecordKV) :
    List RecordKV :=
  l.filter (fun rec => filters.all (fun f => f rec.value))

/-- The deep-search stage: when a query is installed, keep the records it
matches; otherwise keep everything. -/
def deepStage (q : Option String) (l : List RecordKV) : List RecordKV :=
  match q with
  | none => l
  | some query => l.filter (fun rec => deepMatches query rec.value)

/-- Stable insertion of `x` into `l`, after every element `y` with
`le y x`. -/
def insertLe {α : Type} (le : α → α → Bool) (x : α) : List α → List α
  | [] => [x]
  | y :: ys => if le y x then y :: insertLe le x ys else x :: y :: ys

/-- Stable insertion sort by a three-way comparator. -/
def sortByCmp (cmp : JSValue → JSValue → Int) (l : List RecordKV) :
    List RecordKV :=
  l.foldl (fun acc x =>
    insertLe (fun a b => decide (cmp a.value b.value ≤ 0)) x acc) []

/-- The sort stage: apply the comparator when one is installed. -/
def sortStage (sort : Option (JSValue → JSValue → Int))
    (l : List RecordKV) : List RecordKV :=
  match sort with
  | none => l
  | some cmp => sortByCmp cmp l

/-- Modelled from the spec: the external xlmdb `search(subDb, options)`
call is not part of this repository; per spec §4.5 step 2 and §6 it
fetches up to `options.limit` candidate records from the sub-store, then
applies the filter closures, the deep-search query and the comparator
within that sub-store only. -/
def xlmdbSearch (opts : SearchOptions) (records : List RecordKV) :
    List RecordKV :=
  sortStage opts.sort
    (deepStage opts.deepSearch
      (filterStage opts.filters (records.take opts.limit)))

/-- An error thrown by the store layer: a numeric code (LMDB uses
`-30790` for reader-slot exhaustion) and the string the handler would
interpolate for it. -/
structure JsError where
  code : Int
  message : String

/-- One sub-store as seen by the fan-out loop: its name, and either its
record list or the error thrown when opening or reading it. -/
structure SubStoreData where
  name : String
  records : Except JsError (List RecordKV)

/-- Key prefixing done when accumulating a sub-store's results
(`src/index.ts:419`): `name:key`. -/
def qualifyKey (name : String) (r : RecordKV) : RecordKV :=
  ⟨name ++ ":" ++ r.key, r.value⟩

/-- The fan-out loop over sub-stores (`src/index.ts:408-432`): each
sub-store is searched with the shared options; its results are
accumulated with qualified keys; a sub-store that throws is skipped, and
the failure is recorded in the log trace unless its code is `-30790`. -/
def runSubStores (opts : SearchOptions) :
    List SubStoreData → List RecordKV × List (String × JsError)
  | [] => ([], [])
  | sub :: rest =>
    let acc := runSubStores opts rest
    match sub.records with
    | Except.ok recs =>
      ((xlmdbSearch opts recs).map (qualifyKey sub.name) ++ acc.1, acc.2)
    | Except.error e =>
      (acc.1, (if e.code ≠ -30790 then [(sub.name, e)] else []) ++ acc.2)

/-- The JSON body of the search response. -/
structure SearchResponse where
  results : List RecordKV
  count : Nat
  error : Option String

/-- The whole search handler (`src/index.ts:276-454`) on a root store:
if enumerating the root store throws, answer with the data-access error
and no results; otherwise fan out over the sub-stores, truncate the
concatenation to the request's limit, and report its length as `count`.
The second component is the log trace of skipped sub-store failures. -/
def runSearch (root : Except JsError (List SubStoreData))
    (r : SearchRequest) : SearchResponse × List (String × JsError) :=
  match root with
  | Except.error e =>
    ({ results := [], count := 0,
       error := some ("Failed to read database: " ++ e.message) }, [])
  | Except.ok subs =>
    let acc := runSubStores (buildOptions r) subs
    let limited := acc.1.take r.limit
    ({ results := limited, count := limited.length, error := none }, acc.2)

/-- The same pipeline with the deep-search stage removed, used to state
that an empty query applies no deep-search filter. -/
def xlmdbSearchNoDeep (opts : SearchOptions) (records : List RecordKV) :
    List RecordKV :=
  sortStage opts.sort (filterStage opts.filters (records.take opts.limit))

/-- Fan-out loop over sub-stores with the deep-search stage removed. -/
def runSubStoresNoDeep (opts : SearchOptions) :
    List SubStoreData → List RecordKV × List (String × JsError)
  | [] => ([], [])
  | sub :: rest =>
    let acc := runSubStoresNoDeep opts rest
    match sub.records with
    | Except.ok recs =>
      ((xlmdbSearchNoDeep opts recs).map (qualifyKey sub.name) ++ acc.1, acc.2)
    | Except.error e =>
      (acc.1, (if e.code ≠ -30790 then [(sub.name, e)] else []) ++ acc.2)

/-- The search handler with the deep-search stage removed: the meaning of
"the same request with no query at all". -/
def runSearchNoDeep (root : Except JsError (List SubStoreData))
    (r : SearchRequest) : SearchResponse × List (String × JsError) :=
  match root with
  | Except.error e =>
    ({ results := [], count := 0,
       error := some ("Failed to read database: " ++ e.message) }, [])
  | Except.ok subs =>
    let acc := runSubStoresNoDeep (buildOptions r) subs
    let limited := acc.1.take r.limit
    ({ results := limited, count := limited.length, error := none }, acc.2)

/-- The spec's "numeric literal detection" (§4.2): the parsed number of a
literal that passes the detection, `none` otherwise.  A literal passes
exactly when `Number(literal)` is not `NaN` and the literal is not
whitespace-only. -/
def numericLiteral (s : String) : Option Int :=
  if s.trim = "" then none else jsNumber s

/-- Claim C1's description of the `=` operator, written from the spec's
words: case-insensitive string equality when the field value is a string,
else numeric equality when the literal parses as a number and the field
value is a number, else equality of the stringified field value with the
literal. -/
def specEqMatches (v : JSValue) (f s : String) : Bool :=
  match getField v f, numericLiteral s with
  | .vstr str, _ => str.toLower == s.toLower
  | .vnum n, some m => n == m
  | fv, _ => jsToString fv == s

/-- C1: the predicate evaluator with operator `=` agrees everywhere with
the spec's description: case-insensitive string equality when the field
value is a string; otherwise numeric equality with the parsed literal when
the literal parses as a number and the field value is a number; otherwise
equality of the stringified field value with the literal. -/
theorem filter_eq_operator_matches_spec (v : JSValue) (f s : String) :
    evalFilter f "=" s v = specEqMatches v f s := by
  unfold evalFilter specEqMatches numericLiteral
  by_cases ht : s.trim = "" <;>
    cases hf : getField v f <;>
      cases hn : jsNumber s <;>
        simp [ht, hn]

/-- C2: when the field value is not a number, every ordering operator
evaluates to the corresponding lexicographic string comparison of the
stringified field value against the literal. -/
theorem ordering_ops_on_non_number_are_string_compare
    (v : JSValue) (f s : String) (h : (getField v f).isNumberTy = false) :
    evalFilter f ">" s v = decide (s < jsToString (getField v f)) ∧
    evalFilter f "<" s v = decide (jsToString (getField v f) < s) ∧
    evalFilter f ">=" s v = decide (s ≤ jsToString (getField v f)) ∧
    evalFilter f "<=" s v = decide (jsToString (getField v f) ≤ s) := by
  unfold evalFilter
  cases hf : getField v f <;> simp_all [JSValue.isNumberTy]

/-- Witness for C2 at a concrete record whose `price` field is the string
`"cheap"` and the literal `"x"`. -/
theorem ordering_ops_on_non_number_witness :
    evalFilter "price" ">" "x" (JSValue.vobj [("price", JSValue.vstr "cheap")]) =
      decide ("x" < jsToString (getField (JSValue.vobj [("price", JSValue.vstr "cheap")]) "price")) ∧
    evalFilter "price" "<" "x" (JSValue.vobj [("price", JSValue.vstr "cheap")]) =
      decide (jsToString (getField (JSValue.vobj [("price", JSValue.vstr "cheap")]) "price") < "x") ∧
    evalFilter "price" ">=" "x" (JSValue.vobj [("price", JSValue.vstr "cheap")]) =
      decide ("x" ≤ jsToString (getField (JSValue.vobj [("price", JSValue.vstr "cheap")]) "price")) ∧
    evalFilter "price" "<=" "x" (JSValue.vobj [("price", JSValue.vstr "cheap")]) =
      decide (jsToString (getField (JSValue.vobj [("price", JSValue.vstr "cheap")]) "price") ≤ "x") :=
  ordering_ops_on_non_number_are_string_compare
    (JSValue.vobj [("price", JSValue.vstr "cheap")]) "price" "x" rfl

/-- C3: any operator other than `=`, `!=`, `>`, `<`, `>=`, `<=` makes the
predicate evaluator return `true` for every record value and literal. -/
theorem unknown_operator_permissive
    (v : JSValue) (f op s : String)
    (h : op ∉ (["=", "!=", ">", "<", ">=", "<="] : List String)) :
    evalFilter f op s v = true := by
  unfold evalFilter
  split <;> simp_all

/-- Witness for C3 at the concrete operator `"~"`. -/
theorem unknown_operator_witness :
    evalFilter "a" "~" "b" (JSValue.vobj [("a", JSValue.vstr "b")]) = true :=
  unknown_operator_permissive (JSValue.vobj [("a", JSValue.vstr "b")])
    "a" "~" "b" (by decide)

/-- Swapping the operands of the locale-comparison model negates it. -/
theorem jsCompare_swap (s t : String) : jsCompare t s = - jsCompare s t := by
  unfold jsCompare
  by_cases h1 : s < t <;> by_cases h2 : t < s
  · exact absurd h2 (lt_asymm h1)
  · simp [h1, h2]
  · simp [h1, h2]
  · simp [h1, h2]

/-- C4: on any pair of record values whose sort-field values are both
strings or both numbers, the descending comparator is the negation of the
ascending comparator: opposite sign, and zero exactly together. -/
theorem desc_comparator_negates_asc (f : String) (a b : JSValue)
    (h : ((getField a f).isStringTy = true ∧ (getField b f).isStringTy = true) ∨
         ((getField a f).isNumberTy = true ∧ (getField b f).isNumberTy = true)) :
    sortComparatorDesc f a b = - sortComparatorAsc f a b := by
  unfold sortComparatorDesc sortComparatorAsc
  cases ha : getField a f <;> cases hb : getField b f <;>
    simp_all [JSValue.isStringTy, JSValue.isNumberTy, neg_sub]
  exact jsCompare_swap _ _

/-- Witness for C4 at two concrete records with numeric `price` fields. -/
theorem desc_comparator_negates_asc_witness :
    sortComparatorDesc "price" (JSValue.vobj [("price", JSValue.vnum 89)])
        (JSValue.vobj [("price", JSValue.vnum 299)]) =
      - sortComparatorAsc "price" (JSValue.vobj [("price", JSValue.vnum 89)])
        (JSValue.vobj [("price", JSValue.vnum 299)]) :=
  desc_comparator_negates_asc "price"
    (JSValue.vobj [("price", JSValue.vnum 89)])
    (JSValue.vobj [("price", JSValue.vnum 299)])
    (Or.inr ⟨rfl, rfl⟩)

/-- When no deep-search query is installed, the xlmdb search equals the
pipeline without the deep-search stage. -/
theorem xlmdbSearch_no_deep (opts : SearchOptions)
    (hd : opts.deepSearch = none) (recs : List RecordKV) :
    xlmdbSearch opts recs = xlmdbSearchNoDeep opts recs := by
  unfold xlmdbSearch xlmdbSearchNoDeep
  rw [hd]
  rfl

/-- When no deep-search query is installed, the fan-out loop equals the
fan-out loop without the deep-search stage. -/
theorem runSubStores_no_deep (opts : SearchOptions)
    (hd : opts.deepSearch = none) (subs : List SubStoreData) :
    runSubStores opts subs = runSubStoresNoDeep opts subs := by
  induction subs with
  | nil => rfl
  | cons sub rest ih =>
    unfold runSubStores runSubStoresNoDeep
    simp only [ih, xlmdbSearch_no_deep opts hd]

/-- C5: a request whose query text is empty installs no deep-search
filter, every record passes the deep-search stage, and the handler's
response equals that of the pipeline with no deep-search stage at all. -/
theorem empty_query_skips_deep_stage
    (root : Except JsError (List SubStoreData)) (r : SearchRequest)
    (h : r.query = "") :
    (buildOptions r).deepSearch = none ∧
    (∀ recs, deepStage (buildOptions r).deepSearch recs = recs) ∧
    runSearch root r = runSearchNoDeep root r := by
  have hd : (buildOptions r).deepSearch = none := by
    simp [buildOptions, h]
  refine ⟨hd, fun recs => by rw [hd]; rfl, ?_⟩
  cases root with
  | error e => rfl
  | ok subs =>
    simp only [runSearch, runSearchNoDeep,
      runSubStores_no_deep (buildOptions r) hd]

/-- A concrete empty-query request used by the C5 witness. -/
def emptyQueryRequest : SearchRequest where
  query := ""
  filterField := "name"
  filterOperator := "="
  filterValue := "laptop"
  sortBy := ""
  sortOrder := "asc"
  limit := 100

/-- A concrete one-sub-store root used by the C5 witness. -/
def oneSubRoot : Except JsError (List SubStoreData) :=
  Except.ok [⟨"products",
    Except.ok [⟨"p1", JSValue.vobj [("name", JSValue.vstr "laptop")]⟩]⟩]

/-- Witness for C5 at a one-sub-store root and a concrete empty-query
request. -/
theorem empty_query_skips_deep_stage_witness :
    (buildOptions emptyQueryRequest).deepSearch = none ∧
    (∀ recs, deepStage (buildOptions emptyQueryRequest).deepSearch recs = recs) ∧
    runSearch oneSubRoot emptyQueryRequest =
      runSearchNoDeep oneSubRoot emptyQueryRequest :=
  empty_query_skips_deep_stage oneSubRoot emptyQueryRequest rfl

/-- C6: the handler returns at most `limit` records, and the reported
`count` is the length of the returned results array. -/
theorem limit_bound_and_count
    (root : Except JsError (List SubStoreData)) (r : SearchRequest) :
    (runSearch root r).1.results.length ≤ r.limit ∧
    (runSearch root r).1.count = (runSearch root r).1.results.length := by
  cases root with
  | error e => exact ⟨Nat.zero_le _, rfl⟩
  | ok subs =>
    refine ⟨?_, rfl⟩
    simp only [runSearch, List.length_take]
    omega

/-- C7: the options built from a request carry the over-fetch candidate
cap `limit * 10`; the per-sub-store search depends only on the first
`limit * 10` candidate records of the sub-store; and the handler's results
are the concatenated sub-store results truncated to `limit`. -/
theorem overfetch_cap_then_truncate
    (subs : List SubStoreData) (r : SearchRequest) :
    (buildOptions r).limit = r.limit * 10 ∧
    (∀ recs, xlmdbSearch (buildOptions r) recs =
      xlmdbSearch (buildOptions r) (recs.take (r.limit * 10))) ∧
    (runSearch (Except.ok subs) r).1.results =
      (runSubStores (buildOptions r) subs).1.take r.limit := by
  refine ⟨rfl, fun recs => ?_, rfl⟩
  simp [xlmdbSearch, buildOptions, List.take_take]

/-- C8: the fan-out loop collects exactly the qualified results of the
sub-stores that open and read successfully, in enumeration order (a
failing sub-store contributes nothing and stops nothing), and its log
trace holds exactly the failures whose code is not `-30790`. -/
theorem substore_failure_isolation
    (subs : List SubStoreData) (r : SearchRequest) :
    (runSubStores (buildOptions r) subs).1 =
      (subs.map (fun sub =>
        match sub.records with
        | Except.ok recs =>
          (xlmdbSearch (buildOptions r) recs).map (qualifyKey sub.name)
        | Except.error _ => [])).flatten ∧
    (runSubStores (buildOptions r) subs).2 =
      subs.filterMap (fun sub =>
        match sub.records with
        | Except.ok _ => none
        | Except.error e =>
          if e.code ≠ -30790 then some (sub.name, e) else none) := by
  induction subs with
  | nil => exact ⟨rfl, rfl⟩
  | cons sub rest ih =>
    unfold runSubStores
    cases hr : sub.records with
    | ok recs => simp [hr, ih.1, ih.2]
    | error e =>
      by_cases hc : e.code = -30790 <;> simp [hr, hc, ih.1, ih.2]

/-- C9: when enumerating the root store throws, the handler answers with
an empty results array, count `0`, and an error message containing the
underlying cause string. -/
theorem root_failure_fatal (e : JsError) (r : SearchRequest) :
    (runSearch (Except.error e) r).1.results = [] ∧
    (runSearch (Except.error e) r).1.count = 0 ∧
    ∃ msg, (runSearch (Except.error e) r).1.error = some msg ∧
      e.message.data <:+: msg.data := by
  refine ⟨rfl, rfl, "Failed to read database: " ++ e.message, rfl, ?_⟩
  exact ⟨"Failed to read database: ".data, [],
    by simp [String.data_append]⟩

/-- C10: a request whose filter value is empty, or whose filter field is
empty or `"__none__"`, installs no filter closure: the filter stage keeps
every record, and the response does not depend on the filter operator. -/
theorem empty_filter_value_disables_filter (r : SearchRequest)
    (h : r.filterField = "" ∨ r.filterField = "__none__" ∨ r.filterValue = "") :
    (buildOptions r).filters = [] ∧
    (∀ recs, filterStage (buildOptions r).filters recs = recs) ∧
    (∀ op, buildOptions { r with filterOperator := op } = buildOptions r) := by
  have hcond : ¬(r.filterField ≠ "" ∧ r.filterField ≠ "__none__" ∧
      r.filterValue ≠ "") := by tauto
  have hf : (buildOptions r).filters = [] := by
    simp only [buildOptions, if_neg hcond]
  refine ⟨hf, fun recs => ?_, fun op => ?_⟩
  · rw [hf]
    simp [filterStage]
  · simp [buildOptions, if_neg hcond]

/-- A concrete request with filter field `"__none__"`, used by the C10
witness. -/
def noFilterRequest : SearchRequest where
  query := "gaming"
  filterField := "__none__"
  filterOperator := "="
  filterValue := "100"
  sortBy := "price"
  sortOrder := "asc"
  limit := 100

/-- Witness for C10 at a concrete request with filter field `"__none__"`. -/
theorem empty_filter_value_disables_filter_witness :
    (buildOptions noFilterRequest).filters = [] ∧
    (∀ recs, filterStage (buildOptions noFilterRequest).filters recs = recs) ∧
    (∀ op, buildOptions { noFilterRequest with filterOperator := op } =
      buildOptions noFilterRequest) :=
  empty_filter_value_disables_filter noFilterRequest (Or.inr (Or.inl rfl))
